import Mathlib

/-!
Verification of the unit-converter data loader
(`src/CalcViewModel/DataLoaders/UnitConverterDataLoader.cpp`).

The loader is embedded shallowly: the per-category unit declarations, the linear
factor table and the explicit (affine) temperature table are transcribed as Lean
literals; `LoadData` is an executable function over association lists mirroring the
`unordered_map` population loops (with `insert` keeping the first binding for a key,
as `std::unordered_map::insert` does). Machine rationals (the `PRAT` type) are
modelled as exact `Rat` values. Collaborators that are not part of src
(the localized-string provider, the `NavCategory` serialization, the header that
declares `OrderedUnit`, `UCM::Unit`, `UCM::ConversionData` and the unit-id enum) are
modelled from the spec and marked as such in their doc comments.
-/

namespace UnitConv

/-- The converter view modes (measurement domains) that the loader handles. -/
inductive ViewMode where
  | Area
  | Data
  | Energy
  | Length
  | Power
  | Temperature
  | Time
  | Speed
  | Volume
  | Weight
  | Pressure
  | Angle
  | Currency
deriving DecidableEq, Repr

/-- Modelled from the spec: `NavCategory::Serialize` (not in src) maps each converter
view mode to a distinct opaque integer category id. -/
def serialize : ViewMode → Nat
  | ViewMode.Currency => 0
  | ViewMode.Area => 1
  | ViewMode.Data => 2
  | ViewMode.Energy => 3
  | ViewMode.Length => 4
  | ViewMode.Power => 5
  | ViewMode.Temperature => 6
  | ViewMode.Time => 7
  | ViewMode.Speed => 8
  | ViewMode.Volume => 9
  | ViewMode.Weight => 10
  | ViewMode.Pressure => 11
  | ViewMode.Angle => 12

/-- Modelled from the spec: `NavCategory::Deserialize`, the inverse of `serialize`;
`none` stands for ids that are not converter view modes (the source asserts
`IsConverterViewMode` there). -/
def deserialize : Nat → Option ViewMode
  | 0 => some ViewMode.Currency
  | 1 => some ViewMode.Area
  | 2 => some ViewMode.Data
  | 3 => some ViewMode.Energy
  | 4 => some ViewMode.Length
  | 5 => some ViewMode.Power
  | 6 => some ViewMode.Temperature
  | 7 => some ViewMode.Time
  | 8 => some ViewMode.Speed
  | 9 => some ViewMode.Volume
  | 10 => some ViewMode.Weight
  | 11 => some ViewMode.Pressure
  | 12 => some ViewMode.Angle
  | _ => none

/-- The `static int currencyId = NavCategory::Serialize(ViewMode::Currency)` of
`SupportsCategory`. -/
def currencyId : Nat := serialize ViewMode.Currency

/-- `UCM::Category`: { id, display name, supports-negative } (declaration not in src;
field list taken from the spec data model, §3). -/
structure Category where
  id : Nat
  name : String
  supportsNegative : Bool
deriving DecidableEq, Repr

/-- Modelled from the spec: `NavCategoryGroup::CreateConverterCategory` (not in src)
registers one Category per measurement domain, Currency included, each with the id
`NavCategory::Serialize(mode)`, a localized display name and a supports-negative flag
(temperature is the domain the spec singles out as supporting negative values). -/
def getCategories : List Category :=
  [⟨serialize ViewMode.Currency, "Currency", false⟩,
   ⟨serialize ViewMode.Volume, "Volume", false⟩,
   ⟨serialize ViewMode.Length, "Length", false⟩,
   ⟨serialize ViewMode.Weight, "Weight and Mass", false⟩,
   ⟨serialize ViewMode.Temperature, "Temperature", true⟩,
   ⟨serialize ViewMode.Energy, "Energy", false⟩,
   ⟨serialize ViewMode.Area, "Area", false⟩,
   ⟨serialize ViewMode.Speed, "Speed", false⟩,
   ⟨serialize ViewMode.Time, "Time", false⟩,
   ⟨serialize ViewMode.Power, "Power", false⟩,
   ⟨serialize ViewMode.Data, "Data", false⟩,
   ⟨serialize ViewMode.Pressure, "Pressure", false⟩,
   ⟨serialize ViewMode.Angle, "Angle", false⟩]

/-- `UCM::Unit` (declaration not in src; field list and order taken from the spec data
model, §3: id, name, abbreviation, default-from, default-to, whimsical). Map lookups on
units compare ids only, modelling `UnitHash` / unit equality, since ids are unique. -/
structure CUnit where
  id : Nat
  name : String
  abbreviation : String
  isConversionSource : Bool
  isConversionTarget : Bool
  isWhimsical : Bool
deriving DecidableEq, Repr

/-- `OrderedUnit` (declaration not in src): a `UCM::Unit` plus the display-order
integer, aggregate-initialized as (id, name, abbreviation, order, is-default-from,
is-default-to, is-whimsical) with the booleans defaulting to false — the field order
follows the spec data model and the positional initializers at the call sites. -/
structure OrderedUnit where
  id : Nat
  name : String
  abbreviation : String
  order : Nat
  isConversionSource : Bool
  isConversionTarget : Bool
  isWhimsical : Bool
deriving DecidableEq, Repr

/-- The `static_cast<UCM::Unit>(u)` slice: drop the order field. -/
def OrderedUnit.toUnit (u : OrderedUnit) : CUnit :=
  ⟨u.id, u.name, u.abbreviation, u.isConversionSource, u.isConversionTarget, u.isWhimsical⟩

/-- `UCM::ConversionData` (declaration not in src; fields from the spec data model, §3):
ratio, offset, offset-applied-before-ratio. -/
structure ConversionData where
  ratio : Rat
  offset : Rat
  offsetFirst : Bool
deriving DecidableEq, Repr

/-- `static constexpr bool CONVERT_WITH_OFFSET_FIRST = true` (source line 19). -/
def CONVERT_WITH_OFFSET_FIRST : Bool := true
/-- Modelled from the spec: the `UnitConverterUnits` enum (header not in src) assigns each
unit a distinct integer id, stable across loads and unique within (in fact across) categories.
The concrete values are opaque; we assign distinct naturals in order of first appearance. -/
def unitIdCount : Nat := 155
def Area_Acre : Nat := 1
def Area_Hectare : Nat := 2
def Area_SquareCentimeter : Nat := 3
def Area_SquareFoot : Nat := 4
def Area_SquareInch : Nat := 5
def Area_SquareKilometer : Nat := 6
def Area_SquareMeter : Nat := 7
def Area_SquareMile : Nat := 8
def Area_SquareMillimeter : Nat := 9
def Area_SquareYard : Nat := 10
def Area_Hand : Nat := 11
def Area_Paper : Nat := 12
def Area_SoccerField : Nat := 13
def Area_Castle : Nat := 14
def Area_Pyeong : Nat := 15
def Data_Bit : Nat := 16
def Data_Byte : Nat := 17
def Data_Exabits : Nat := 18
def Data_Exabytes : Nat := 19
def Data_Exbibits : Nat := 20
def Data_Exbibytes : Nat := 21
def Data_Gibibits : Nat := 22
def Data_Gibibytes : Nat := 23
def Data_Gigabit : Nat := 24
def Data_Gigabyte : Nat := 25
def Data_Kibibits : Nat := 26
def Data_Kibibytes : Nat := 27
def Data_Kilobit : Nat := 28
def Data_Kilobyte : Nat := 29
def Data_Mebibits : Nat := 30
def Data_Mebibytes : Nat := 31
def Data_Megabit : Nat := 32
def Data_Megabyte : Nat := 33
def Data_Pebibits : Nat := 34
def Data_Pebibytes : Nat := 35
def Data_Petabit : Nat := 36
def Data_Petabyte : Nat := 37
def Data_Tebibits : Nat := 38
def Data_Tebibytes : Nat := 39
def Data_Terabit : Nat := 40
def Data_Terabyte : Nat := 41
def Data_Yobibits : Nat := 42
def Data_Yobibytes : Nat := 43
def Data_Yottabit : Nat := 44
def Data_Yottabyte : Nat := 45
def Data_Zebibits : Nat := 46
def Data_Zebibytes : Nat := 47
def Data_Zetabits : Nat := 48
def Data_Zetabytes : Nat := 49
def Data_FloppyDisk : Nat := 50
def Data_CD : Nat := 51
def Data_DVD : Nat := 52
def Energy_BritishThermalUnit : Nat := 53
def Energy_Calorie : Nat := 54
def Energy_ElectronVolt : Nat := 55
def Energy_FootPound : Nat := 56
def Energy_Joule : Nat := 57
def Energy_Kilocalorie : Nat := 58
def Energy_Kilojoule : Nat := 59
def Energy_Battery : Nat := 60
def Energy_Banana : Nat := 61
def Energy_SliceOfCake : Nat := 62
def Length_Centimeter : Nat := 63
def Length_Foot : Nat := 64
def Length_Inch : Nat := 65
def Length_Kilometer : Nat := 66
def Length_Meter : Nat := 67
def Length_Micron : Nat := 68
def Length_Mile : Nat := 69
def Length_Millimeter : Nat := 70
def Length_Nanometer : Nat := 71
def Length_NauticalMile : Nat := 72
def Length_Yard : Nat := 73
def Length_Paperclip : Nat := 74
def Length_Hand : Nat := 75
def Length_JumboJet : Nat := 76
def Power_BritishThermalUnitPerMinute : Nat := 77
def Power_FootPoundPerMinute : Nat := 78
def Power_Horsepower : Nat := 79
def Power_Kilowatt : Nat := 80
def Power_Watt : Nat := 81
def Power_LightBulb : Nat := 82
def Power_Horse : Nat := 83
def Power_TrainEngine : Nat := 84
def Temperature_DegreesCelsius : Nat := 85
def Temperature_DegreesFahrenheit : Nat := 86
def Temperature_Kelvin : Nat := 87
def Time_Day : Nat := 88
def Time_Hour : Nat := 89
def Time_Microsecond : Nat := 90
def Time_Millisecond : Nat := 91
def Time_Minute : Nat := 92
def Time_Second : Nat := 93
def Time_Week : Nat := 94
def Time_Year : Nat := 95
def Speed_CentimetersPerSecond : Nat := 96
def Speed_FeetPerSecond : Nat := 97
def Speed_KilometersPerHour : Nat := 98
def Speed_Knot : Nat := 99
def Speed_Mach : Nat := 100
def Speed_MetersPerSecond : Nat := 101
def Speed_MilesPerHour : Nat := 102
def Speed_Turtle : Nat := 103
def Speed_Horse : Nat := 104
def Speed_Jet : Nat := 105
def Volume_CubicCentimeter : Nat := 106
def Volume_CubicFoot : Nat := 107
def Volume_CubicInch : Nat := 108
def Volume_CubicMeter : Nat := 109
def Volume_CubicYard : Nat := 110
def Volume_CupUS : Nat := 111
def Volume_FluidOunceUK : Nat := 112
def Volume_FluidOunceUS : Nat := 113
def Volume_GallonUK : Nat := 114
def Volume_GallonUS : Nat := 115
def Volume_Liter : Nat := 116
def Volume_Milliliter : Nat := 117
def Volume_PintUK : Nat := 118
def Volume_PintUS : Nat := 119
def Volume_TablespoonUS : Nat := 120
def Volume_TeaspoonUS : Nat := 121
def Volume_QuartUK : Nat := 122
def Volume_QuartUS : Nat := 123
def Volume_TeaspoonUK : Nat := 124
def Volume_TablespoonUK : Nat := 125
def Volume_CoffeeCup : Nat := 126
def Volume_Bathtub : Nat := 127
def Volume_SwimmingPool : Nat := 128
def Weight_Carat : Nat := 129
def Weight_Centigram : Nat := 130
def Weight_Decigram : Nat := 131
def Weight_Decagram : Nat := 132
def Weight_Gram : Nat := 133
def Weight_Hectogram : Nat := 134
def Weight_Kilogram : Nat := 135
def Weight_LongTon : Nat := 136
def Weight_Milligram : Nat := 137
def Weight_Ounce : Nat := 138
def Weight_Pound : Nat := 139
def Weight_ShortTon : Nat := 140
def Weight_Stone : Nat := 141
def Weight_Tonne : Nat := 142
def Weight_Snowflake : Nat := 143
def Weight_SoccerBall : Nat := 144
def Weight_Elephant : Nat := 145
def Weight_Whale : Nat := 146
def Pressure_Atmosphere : Nat := 147
def Pressure_Bar : Nat := 148
def Pressure_KiloPascal : Nat := 149
def Pressure_MillimeterOfMercury : Nat := 150
def Pressure_Pascal : Nat := 151
def Pressure_PSI : Nat := 152
def Angle_Degree : Nat := 153
def Angle_Radian : Nat := 154
def Angle_Gradian : Nat := 155

def rat_one : Rat := 1
def rat_zero : Rat := 0
/-- The shared rational constants (the `rat_*` globals, §9 of the design); the PRAT
macros are not in src, so each `INIT_AND_DUMP_RAW_RAT[_FRAQ]_IF_NULL(r, n[, d])` call is
modelled from the spec as the exact rational n (or n/d). -/
def ratConstantCount : Nat := 132
def rat_60 : Rat := mkRat (60) 1
def rat_100 : Rat := mkRat (100) 1
def rat_1000 : Rat := mkRat (1000) 1
def rat_10000 : Rat := mkRat (10000) 1
def rat_100000 : Rat := mkRat (100000) 1
def rat_1000000 : Rat := mkRat (1000000) 1
def rat_pressure_bar : Rat := mkRat (100000) (101325)
def rat_pressure_pascal : Rat := mkRat (1) (101325)
def rat_pressure_kilopascal : Rat := mkRat (1000) (101325)
def rat_power_horsepower : Rat := mkRat (74569987158227022) (100000000000000)
def rat_power_horse : Rat := mkRat (7457) (10)
def rat_pressure_millimeterofmercury : Rat := mkRat (1) (760)
def rat_pressure_psi : Rat := mkRat (10000) (146956)
def rat_length_inch : Rat := mkRat (254) (10000)
def rat_foot : Rat := mkRat (3048) (10000)
def rat_length_yard : Rat := mkRat (9144) (10000)
def rat_length_mile : Rat := mkRat (1609344) (1000)
def rat_length_nauticalmile : Rat := mkRat (1852) (1)
def rat_length_paperclip : Rat := mkRat (35052) (1000000)
def rat_length_hand : Rat := mkRat (18669) (100000)
def rat_speed_kilometersperhour : Rat := mkRat (250) (9)
def rat_length_jumbojet : Rat := mkRat (76) 1
def rat_0_125 : Rat := mkRat (1) (8)
def rat_0_000125 : Rat := mkRat (1) (8000)
def rat_data_bit : Rat := mkRat (1) (8000000)
def rat_length_nanometer : Rat := mkRat (1) (100000000)
def rat_0_000002 : Rat := mkRat (2) (100000)
def rat_0_000001 : Rat := mkRat (1) (100000)
def rat_0_00001 : Rat := mkRat (1) (10000)
def rat_0_0002 : Rat := mkRat (2) (10000)
def rat_0_0001 : Rat := mkRat (1) (10000)
def rat_0_001 : Rat := mkRat (1) (1000)
def rat_0_01 : Rat := mkRat (1) (100)
def rat_0_1 : Rat := mkRat (1) (10)
def rat_0_9 : Rat := mkRat (9) (10)
def rat_angle_gradian : Rat := mkRat (9) (10)
def rat_angle_radian : Rat := mkRat (5729577951308233) (100000000000000)
def rat_area_acre : Rat := mkRat (40468564224) (10000000)
def rat_area_hand : Rat := mkRat (12516104) (1000000000)
def rat_area_paper : Rat := mkRat (6032246) (100000000)
def rat_area_pyeong : Rat := mkRat (400) (121)
def rat_area_soccerfield : Rat := mkRat (1086966) (100)
def rat_area_squarefoot : Rat := mkRat (144*64516) (10000)
def rat_area_squareinch : Rat := mkRat (64516) (100000000)
def rat_area_squaremile : Rat := mkRat (4014489600 * 64516) (10000)
def rat_area_squareyard : Rat := mkRat (1296*64516) (10000)
def rat_data_cd : Rat := mkRat (700 * 1024 * 1024) 1
def rat_data_dvd : Rat := mkRat (47*1024*1024*1024) (10000000)
def rat_data_exabits : Rat := mkRat (125000000000) 1
def rat_data_exabytes : Rat := mkRat (1000000000000) 1
def rat_data_exbibits : Rat := mkRat (1024*1024*1024*1024*1024*1024) (8000000)
def rat_data_exbibytes : Rat := mkRat (1024*1024*1024*1024*1024*1024) 1
def rat_data_floppydisk : Rat := mkRat (144*1024*1024) (100000000)
def rat_data_gibibits : Rat := mkRat (1024*1024*1024) (8000000)
def rat_data_gibibytes : Rat := mkRat (1024*1024*1024) 1
def rat_data_gigabit : Rat := mkRat (125) 1
def rat_data_kibibits : Rat := mkRat (1024) (8000000)
def rat_data_kibibytes : Rat := mkRat (1024) (1000000)
def rat_data_kilobit : Rat := mkRat (1) (8000)
def rat_data_mebibits : Rat := mkRat (1024*1024) (8000000)
def rat_data_mebibytes : Rat := mkRat (1024*1024) (1000000)
def rat_data_pebibits : Rat := mkRat (1024*1024*1024*1024*1024) (8000000)
def rat_data_pebibytes : Rat := mkRat (1024*1024*1024*1024*1024) (1000000)
def rat_data_petabit : Rat := mkRat (125000000) 1
def rat_data_petabyte : Rat := mkRat (1000000000) 1
def rat_data_tebibits : Rat := mkRat (1024*1024*1024*1024) (8000000)
def rat_data_tebibytes : Rat := mkRat (1024*1024*1024*1024) (1000000)
def rat_data_terabit : Rat := mkRat (125000) 1
def rat_data_yobibits : Rat := mkRat (1024*1024*1024*1024*1024*1024*1024) (8000000)
def rat_data_yobibytes : Rat := mkRat (1024*1024*1024*1024*1024*1024*1024) (1000000)
def rat_data_yottabit : Rat := mkRat (125000000000000000) 1
def rat_data_yottabyte : Rat := mkRat (1000000000000000000) 1
def rat_data_zebibits : Rat := mkRat (1024*1024*1024*1024*1024*1024) (8000000)
def rat_data_zebibytes : Rat := mkRat (1024*1024*1024*1024*1024*1024) (1000000)
def rat_data_zetabits : Rat := mkRat (125000000000000) 1
def rat_data_zetabytes : Rat := mkRat (1000000000000000) 1
def rat_energy_banana : Rat := mkRat (439614) 1
def rat_energy_battery : Rat := mkRat (9000) 1
def rat_energy_britishthermalunit : Rat := mkRat (10550559) (10000)
def rat_energy_calorie : Rat := mkRat (4184) (1000)
def rat_energy_electronvolt : Rat := mkRat (1602176565) (100000000000000000000)
def rat_energy_footpound : Rat := mkRat (13558179483314004) (10000000000000000)
def rat_energy_kilocalorie : Rat := mkRat (4184) 1
def rat_energy_sliceofcake : Rat := mkRat (1046700) 1
def rat_power_footpoundperminute : Rat := mkRat (13558179483314004) (60*10000000000000000)
def rat_power_trainengine : Rat := mkRat (2982799486329081) (1000000000)
def rat_speed_feetpersecond : Rat := mkRat (3048) (100)
def rat_speed_horse : Rat := mkRat (20115) (10)
def rat_speed_jet : Rat := mkRat (24585) 1
def rat_speed_knot : Rat := mkRat (4 + (51*9)) (9)
def rat_speed_mach : Rat := mkRat (34030) 1
def rat_speed_milesperhour : Rat := mkRat (447) (10)
def rat_speed_turtle : Rat := mkRat (894) (100)
def rat_time_day : Rat := mkRat (24 * 60 * 60) 1
def rat_time_hour : Rat := mkRat (60 * 60) 1
def rat_time_week : Rat := mkRat (7 * 24 * 60 * 60) 1
def rat_time_year : Rat := mkRat ((1461 * 6 ) * 60 * 60) 1
def rat_volume_bathtub : Rat := mkRat (400 * 946353) (1000)
def rat_volume_coffeecup : Rat := mkRat (2365882) (10000)
def rat_volume_cubicfoot : Rat := mkRat (254*254*254*12*12*12) (100*100*100)
def rat_volume_cubicinch : Rat := mkRat (254*254*254) (100*100*100)
def rat_volume_cubicyard : Rat := mkRat (254*254*254*12*12*12*3*3*3) (100*100*100)
def rat_volume_cupus : Rat := mkRat (236588237) (1000000)
def rat_volume_fluidounceuk : Rat := mkRat (284130625) (10000000)
def rat_volume_fluidounceus : Rat := mkRat (295735295625) (10000000000)
def rat_volume_gallonuk : Rat := mkRat (454609) (100)
def rat_volume_gallonus : Rat := mkRat (3785411784) (1000000)
def rat_volume_pintuk : Rat := mkRat (56826125) (100000)
def rat_volume_pintus : Rat := mkRat (473176473) (1000000)
def rat_volume_quartuk : Rat := mkRat (11365225) (10000)
def rat_volume_quartus : Rat := mkRat (946352946) (1000000)
def rat_volume_swimmingpool : Rat := mkRat (3750000000) 1
def rat_volume_tablespoonuk : Rat := mkRat (177581640625) (10000000000)
def rat_volume_tablespoonus : Rat := mkRat (1478676478125) (100000000000)
def rat_volume_teaspoonuk : Rat := mkRat (1420653125) (240000000)
def rat_volume_teaspoonus : Rat := mkRat (231*254*254*254) (6*128*100*100*100)
def rat_weight_elephant : Rat := mkRat (4000) 1
def rat_weight_longton : Rat := mkRat (10160469088) (10000000)
def rat_weight_ounce : Rat := mkRat (45359237) (1600000000)
def rat_weight_pound : Rat := mkRat (45359237) (100000000)
def rat_weight_shortton : Rat := mkRat (90718474) (100000)
def rat_weight_soccerball : Rat := mkRat (4325) (10000)
def rat_weight_stone : Rat := mkRat (14*45359237) (100000000)
def rat_weight_whale : Rat := mkRat (90000) 1
/-- `PRAT rat_power_britishthermalunitperminute = nullptr;` (source line 845) is declared
but, unlike every other factor, never initialized by any `INIT_AND_DUMP_RAW_RAT*` call,
so `unitDataList` hands `GetConversionData` a null `PRAT` for
`Power_BritishThermalUnitPerMinute`. The null rational is modelled as 0: it is not a
positive rational, and the `assert(conversionFactor > 0)` of `LoadData` line 129 rejects
it (see the theorems on claims C2 and C8). -/
def rat_power_britishthermalunitperminute : Rat := 0
def rat_temperature_degreescelsius_farenheit : Rat := mkRat (18) (10)
def rat_temperature_degreesfarenheit_celsius : Rat := mkRat (10) (18)
def rat_temperature_offset_celsius_kelvin : Rat := mkRat (27315) (100)
def rat_temperature_offset_kelvin_celsius : Rat := mkRat (-27315) (100)
def rat_temperature_offset_farenheit_kelvin : Rat := mkRat (45967) (100)
def rat_temperature_offset_kelvin_farenheit : Rat := mkRat (-45967) (100)
def rat_temperature_offset_farenheit_celsius : Rat := mkRat (-32) 1
def rat_temperature_offset_celsius_farenheit : Rat := mkRat (32) 1

/-- Embedding of `UnitConverterDataLoader::GetUnits`, with the region flags (the locals of lines
161-180 of the source) passed explicitly as booleans; `b_isGB` is the raw test
`m_currentRegionCode == "GB"` used inside the Volume list. The Pyeong unit is appended
to the Area list only when `b_usePyeong` holds, exactly as in the source. -/
def getUnitsWithFlags (loc : String → String)
    (b_useSI b_useUSCustomary b_useFahrenheit b_useWatt b_usePyeong b_isGB : Bool) :
    List (ViewMode × List OrderedUnit) :=
  let areaUnits : List OrderedUnit :=
    [⟨Area_Acre, loc "UnitName_Acre", loc "UnitAbbreviation_Acre", 9, false, false, false⟩,
     ⟨Area_Hectare, loc "UnitName_Hectare", loc "UnitAbbreviation_Hectare", 4, false, false, false⟩,
     ⟨Area_SquareCentimeter, loc "UnitName_SquareCentimeter", loc "UnitAbbreviation_SquareCentimeter", 2, false, false, false⟩,
     ⟨Area_SquareFoot, loc "UnitName_SquareFoot", loc "UnitAbbreviation_SquareFoot", 7, b_useSI, b_useUSCustomary, false⟩,
     ⟨Area_SquareInch, loc "UnitName_SquareInch", loc "UnitAbbreviation_SquareInch", 6, false, false, false⟩,
     ⟨Area_SquareKilometer, loc "UnitName_SquareKilometer", loc "UnitAbbreviation_SquareKilometer", 5, false, false, false⟩,
     ⟨Area_SquareMeter, loc "UnitName_SquareMeter", loc "UnitAbbreviation_SquareMeter", 3, b_useUSCustomary, b_useSI, false⟩,
     ⟨Area_SquareMile, loc "UnitName_SquareMile", loc "UnitAbbreviation_SquareMile", 10, false, false, false⟩,
     ⟨Area_SquareMillimeter, loc "UnitName_SquareMillimeter", loc "UnitAbbreviation_SquareMillimeter", 1, false, false, false⟩,
     ⟨Area_SquareYard, loc "UnitName_SquareYard", loc "UnitAbbreviation_SquareYard", 8, false, false, false⟩,
     ⟨Area_Hand, loc "UnitName_Hand", loc "UnitAbbreviation_Hand", 11, false, false, true⟩,
     ⟨Area_Paper, loc "UnitName_Paper", loc "UnitAbbreviation_Paper", 12, false, false, true⟩,
     ⟨Area_SoccerField, loc "UnitName_SoccerField", loc "UnitAbbreviation_SoccerField", 13, false, false, true⟩,
     ⟨Area_Castle, loc "UnitName_Castle", loc "UnitAbbreviation_Castle", 14, false, false, true⟩] ++
    (if b_usePyeong then [⟨Area_Pyeong, loc "UnitName_Pyeong", loc "UnitAbbreviation_Pyeong", 15, false, false, false⟩] else [])
  let dataUnits : List OrderedUnit :=
    [⟨Data_Bit, loc "UnitName_Bit", loc "UnitAbbreviation_Bit", 1, false, false, false⟩,
     ⟨Data_Byte, loc "UnitName_Byte", loc "UnitAbbreviation_Byte", 2, false, false, false⟩,
     ⟨Data_Exabits, loc "UnitName_Exabits", loc "UnitAbbreviation_Exabits", 23, false, false, false⟩,
     ⟨Data_Exabytes, loc "UnitName_Exabytes", loc "UnitAbbreviation_Exabytes", 25, false, false, false⟩,
     ⟨Data_Exbibits, loc "UnitName_Exbibits", loc "UnitAbbreviation_Exbibits", 24, false, false, false⟩,
     ⟨Data_Exbibytes, loc "UnitName_Exbibytes", loc "UnitAbbreviation_Exbibytes", 26, false, false, false⟩,
     ⟨Data_Gibibits, loc "UnitName_Gibibits", loc "UnitAbbreviation_Gibibits", 12, false, false, false⟩,
     ⟨Data_Gibibytes, loc "UnitName_Gibibytes", loc "UnitAbbreviation_Gibibytes", 14, false, false, false⟩,
     ⟨Data_Gigabit, loc "UnitName_Gigabit", loc "UnitAbbreviation_Gigabit", 11, false, false, false⟩,
     ⟨Data_Gigabyte, loc "UnitName_Gigabyte", loc "UnitAbbreviation_Gigabyte", 13, true, false, false⟩,
     ⟨Data_Kibibits, loc "UnitName_Kibibits", loc "UnitAbbreviation_Kibibits", 4, false, false, false⟩,
     ⟨Data_Kibibytes, loc "UnitName_Kibibytes", loc "UnitAbbreviation_Kibibytes", 6, false, false, false⟩,
     ⟨Data_Kilobit, loc "UnitName_Kilobit", loc "UnitAbbreviation_Kilobit", 3, false, false, false⟩,
     ⟨Data_Kilobyte, loc "UnitName_Kilobyte", loc "UnitAbbreviation_Kilobyte", 5, false, false, false⟩,
     ⟨Data_Mebibits, loc "UnitName_Mebibits", loc "UnitAbbreviation_Mebibits", 8, false, false, false⟩,
     ⟨Data_Mebibytes, loc "UnitName_Mebibytes", loc "UnitAbbreviation_Mebibytes", 10, false, false, false⟩,
     ⟨Data_Megabit, loc "UnitName_Megabit", loc "UnitAbbreviation_Megabit", 7, false, false, false⟩,
     ⟨Data_Megabyte, loc "UnitName_Megabyte", loc "UnitAbbreviation_Megabyte", 9, false, true, false⟩,
     ⟨Data_Pebibits, loc "UnitName_Pebibits", loc "UnitAbbreviation_Pebibits", 20, false, false, false⟩,
     ⟨Data_Pebibytes, loc "UnitName_Pebibytes", loc "UnitAbbreviation_Pebibytes", 22, false, false, false⟩,
     ⟨Data_Petabit, loc "UnitName_Petabit", loc "UnitAbbreviation_Petabit", 19, false, false, false⟩,
     ⟨Data_Petabyte, loc "UnitName_Petabyte", loc "UnitAbbreviation_Petabyte", 21, false, false, false⟩,
     ⟨Data_Tebibits, loc "UnitName_Tebibits", loc "UnitAbbreviation_Tebibits", 16, false, false, false⟩,
     ⟨Data_Tebibytes, loc "UnitName_Tebibytes", loc "UnitAbbreviation_Tebibytes", 18, false, false, false⟩,
     ⟨Data_Terabit, loc "UnitName_Terabit", loc "UnitAbbreviation_Terabit", 15, false, false, false⟩,
     ⟨Data_Terabyte, loc "UnitName_Terabyte", loc "UnitAbbreviation_Terabyte", 17, false, false, false⟩,
     ⟨Data_Yobibits, loc "UnitName_Yobibits", loc "UnitAbbreviation_Yobibits", 32, false, false, false⟩,
     ⟨Data_Yobibytes, loc "UnitName_Yobibytes", loc "UnitAbbreviation_Yobibytes", 34, false, false, false⟩,
     ⟨Data_Yottabit, loc "UnitName_Yottabit", loc "UnitAbbreviation_Yottabit", 31, false, false, false⟩,
     ⟨Data_Yottabyte, loc "UnitName_Yottabyte", loc "UnitAbbreviation_Yottabyte", 33, false, false, false⟩,
     ⟨Data_Zebibits, loc "UnitName_Zebibits", loc "UnitAbbreviation_Zebibits", 28, false, false, false⟩,
     ⟨Data_Zebibytes, loc "UnitName_Zebibytes", loc "UnitAbbreviation_Zebibytes", 30, false, false, false⟩,
     ⟨Data_Zetabits, loc "UnitName_Zetabits", loc "UnitAbbreviation_Zetabits", 27, false, false, false⟩,
     ⟨Data_Zetabytes, loc "UnitName_Zetabytes", loc "UnitAbbreviation_Zetabytes", 29, false, false, false⟩,
     ⟨Data_FloppyDisk, loc "UnitName_FloppyDisk", loc "UnitAbbreviation_FloppyDisk", 13, false, false, true⟩,
     ⟨Data_CD, loc "UnitName_CD", loc "UnitAbbreviation_CD", 14, false, false, true⟩,
     ⟨Data_DVD, loc "UnitName_DVD", loc "UnitAbbreviation_DVD", 15, false, false, true⟩]
  let energyUnits : List OrderedUnit :=
    [⟨Energy_BritishThermalUnit, loc "UnitName_BritishThermalUnit", loc "UnitAbbreviation_BritishThermalUnit", 7, false, false, false⟩,
     ⟨Energy_Calorie, loc "UnitName_Calorie", loc "UnitAbbreviation_Calorie", 4, false, false, false⟩,
     ⟨Energy_ElectronVolt, loc "UnitName_Electron-Volt", loc "UnitAbbreviation_Electron-Volt", 1, false, false, false⟩,
     ⟨Energy_FootPound, loc "UnitName_Foot-Pound", loc "UnitAbbreviation_Foot-Pound", 6, false, false, false⟩,
     ⟨Energy_Joule, loc "UnitName_Joule", loc "UnitAbbreviation_Joule", 2, true, false, false⟩,
     ⟨Energy_Kilocalorie, loc "UnitName_Kilocalorie", loc "UnitAbbreviation_Kilocalorie", 5, false, true, false⟩,
     ⟨Energy_Kilojoule, loc "UnitName_Kilojoule", loc "UnitAbbreviation_Kilojoule", 3, false, false, false⟩,
     ⟨Energy_Battery, loc "UnitName_Battery", loc "UnitAbbreviation_Battery", 8, false, false, true⟩,
     ⟨Energy_Banana, loc "UnitName_Banana", loc "UnitAbbreviation_Banana", 9, false, false, true⟩,
     ⟨Energy_SliceOfCake, loc "UnitName_SliceOfCake", loc "UnitAbbreviation_SliceOfCake", 10, false, false, true⟩]
  let lengthUnits : List OrderedUnit :=
    [⟨Length_Centimeter, loc "UnitName_Centimeter", loc "UnitAbbreviation_Centimeter", 4, b_useUSCustomary, b_useSI, false⟩,
     ⟨Length_Foot, loc "UnitName_Foot", loc "UnitAbbreviation_Foot", 8, false, false, false⟩,
     ⟨Length_Inch, loc "UnitName_Inch", loc "UnitAbbreviation_Inch", 7, b_useSI, b_useUSCustomary, false⟩,
     ⟨Length_Kilometer, loc "UnitName_Kilometer", loc "UnitAbbreviation_Kilometer", 6, false, false, false⟩,
     ⟨Length_Meter, loc "UnitName_Meter", loc "UnitAbbreviation_Meter", 5, false, false, false⟩,
     ⟨Length_Micron, loc "UnitName_Micron", loc "UnitAbbreviation_Micron", 2, false, false, false⟩,
     ⟨Length_Mile, loc "UnitName_Mile", loc "UnitAbbreviation_Mile", 10, false, false, false⟩,
     ⟨Length_Millimeter, loc "UnitName_Millimeter", loc "UnitAbbreviation_Millimeter", 3, false, false, false⟩,
     ⟨Length_Nanometer, loc "UnitName_Nanometer", loc "UnitAbbreviation_Nanometer", 1, false, false, false⟩,
     ⟨Length_NauticalMile, loc "UnitName_NauticalMile", loc "UnitAbbreviation_NauticalMile", 11, false, false, false⟩,
     ⟨Length_Yard, loc "UnitName_Yard", loc "UnitAbbreviation_Yard", 9, false, false, false⟩,
     ⟨Length_Paperclip, loc "UnitName_Paperclip", loc "UnitAbbreviation_Paperclip", 12, false, false, true⟩,
     ⟨Length_Hand, loc "UnitName_Hand", loc "UnitAbbreviation_Hand", 13, false, false, true⟩,
     ⟨Length_JumboJet, loc "UnitName_JumboJet", loc "UnitAbbreviation_JumboJet", 14, false, false, true⟩]
  let powerUnits : List OrderedUnit :=
    [⟨Power_BritishThermalUnitPerMinute, loc "UnitName_BTUPerMinute", loc "UnitAbbreviation_BTUPerMinute", 5, false, false, false⟩,
     ⟨Power_FootPoundPerMinute, loc "UnitName_Foot-PoundPerMinute", loc "UnitAbbreviation_Foot-PoundPerMinute", 4, false, false, false⟩,
     ⟨Power_Horsepower, loc "UnitName_Horsepower", loc "UnitAbbreviation_Horsepower", 3, false, true, false⟩,
     ⟨Power_Kilowatt, loc "UnitName_Kilowatt", loc "UnitAbbreviation_Kilowatt", 2, !b_useWatt, false, false⟩,
     ⟨Power_Watt, loc "UnitName_Watt", loc "UnitAbbreviation_Watt", 1, b_useWatt, false, false⟩,
     ⟨Power_LightBulb, loc "UnitName_LightBulb", loc "UnitAbbreviation_LightBulb", 6, false, false, true⟩,
     ⟨Power_Horse, loc "UnitName_Horse", loc "UnitAbbreviation_Horse", 7, false, false, true⟩,
     ⟨Power_TrainEngine, loc "UnitName_TrainEngine", loc "UnitAbbreviation_TrainEngine", 8, false, false, true⟩]
  let tempUnits : List OrderedUnit :=
    [⟨Temperature_DegreesCelsius, loc "UnitName_DegreesCelsius", loc "UnitAbbreviation_DegreesCelsius", 1, b_useFahrenheit, !b_useFahrenheit, false⟩,
     ⟨Temperature_DegreesFahrenheit, loc "UnitName_DegreesFahrenheit", loc "UnitAbbreviation_DegreesFahrenheit", 2, !b_useFahrenheit, b_useFahrenheit, false⟩,
     ⟨Temperature_Kelvin, loc "UnitName_Kelvin", loc "UnitAbbreviation_Kelvin", 3, false, false, false⟩]
  let timeUnits : List OrderedUnit :=
    [⟨Time_Day, loc "UnitName_Day", loc "UnitAbbreviation_Day", 6, false, false, false⟩,
     ⟨Time_Hour, loc "UnitName_Hour", loc "UnitAbbreviation_Hour", 5, true, false, false⟩,
     ⟨Time_Microsecond, loc "UnitName_Microsecond", loc "UnitAbbreviation_Microsecond", 1, false, false, false⟩,
     ⟨Time_Millisecond, loc "UnitName_Millisecond", loc "UnitAbbreviation_Millisecond", 2, false, false, false⟩,
     ⟨Time_Minute, loc "UnitName_Minute", loc "UnitAbbreviation_Minute", 4, false, true, false⟩,
     ⟨Time_Second, loc "UnitName_Second", loc "UnitAbbreviation_Second", 3, false, false, false⟩,
     ⟨Time_Week, loc "UnitName_Week", loc "UnitAbbreviation_Week", 7, false, false, false⟩,
     ⟨Time_Year, loc "UnitName_Year", loc "UnitAbbreviation_Year", 8, false, false, false⟩]
  let speedUnits : List OrderedUnit :=
    [⟨Speed_CentimetersPerSecond, loc "UnitName_CentimetersPerSecond", loc "UnitAbbreviation_CentimetersPerSecond", 1, false, false, false⟩,
     ⟨Speed_FeetPerSecond, loc "UnitName_FeetPerSecond", loc "UnitAbbreviation_FeetPerSecond", 4, false, false, false⟩,
     ⟨Speed_KilometersPerHour, loc "UnitName_KilometersPerHour", loc "UnitAbbreviation_KilometersPerHour", 3, b_useUSCustomary, b_useSI, false⟩,
     ⟨Speed_Knot, loc "UnitName_Knot", loc "UnitAbbreviation_Knot", 6, false, false, false⟩,
     ⟨Speed_Mach, loc "UnitName_Mach", loc "UnitAbbreviation_Mach", 7, false, false, false⟩,
     ⟨Speed_MetersPerSecond, loc "UnitName_MetersPerSecond", loc "UnitAbbreviation_MetersPerSecond", 2, false, false, false⟩,
     ⟨Speed_MilesPerHour, loc "UnitName_MilesPerHour", loc "UnitAbbreviation_MilesPerHour", 5, b_useSI, b_useUSCustomary, false⟩,
     ⟨Speed_Turtle, loc "UnitName_Turtle", loc "UnitAbbreviation_Turtle", 8, false, false, true⟩,
     ⟨Speed_Horse, loc "UnitName_Horse", loc "UnitAbbreviation_Horse", 9, false, false, true⟩,
     ⟨Speed_Jet, loc "UnitName_Jet", loc "UnitAbbreviation_Jet", 10, false, false, true⟩]
  let volumeUnits : List OrderedUnit :=
    [⟨Volume_CubicCentimeter, loc "UnitName_CubicCentimeter", loc "UnitAbbreviation_CubicCentimeter", 2, false, false, false⟩,
     ⟨Volume_CubicFoot, loc "UnitName_CubicFoot", loc "UnitAbbreviation_CubicFoot", 13, false, false, false⟩,
     ⟨Volume_CubicInch, loc "UnitName_CubicInch", loc "UnitAbbreviation_CubicInch", 12, false, false, false⟩,
     ⟨Volume_CubicMeter, loc "UnitName_CubicMeter", loc "UnitAbbreviation_CubicMeter", 4, false, false, false⟩,
     ⟨Volume_CubicYard, loc "UnitName_CubicYard", loc "UnitAbbreviation_CubicYard", 14, false, false, false⟩,
     ⟨Volume_CupUS, loc "UnitName_CupUS", loc "UnitAbbreviation_CupUS", 8, false, false, false⟩,
     ⟨Volume_FluidOunceUK, loc "UnitName_FluidOunceUK", loc "UnitAbbreviation_FluidOunceUK", 17, false, false, false⟩,
     ⟨Volume_FluidOunceUS, loc "UnitName_FluidOunceUS", loc "UnitAbbreviation_FluidOunceUS", 7, false, false, false⟩,
     ⟨Volume_GallonUK, loc "UnitName_GallonUK", loc "UnitAbbreviation_GallonUK", 20, false, false, false⟩,
     ⟨Volume_GallonUS, loc "UnitName_GallonUS", loc "UnitAbbreviation_GallonUS", 11, false, false, false⟩,
     ⟨Volume_Liter, loc "UnitName_Liter", loc "UnitAbbreviation_Liter", 3, false, false, false⟩,
     ⟨Volume_Milliliter, loc "UnitName_Milliliter", loc "UnitAbbreviation_Milliliter", 1, b_useUSCustomary, b_useSI, false⟩,
     ⟨Volume_PintUK, loc "UnitName_PintUK", loc "UnitAbbreviation_PintUK", 18, false, false, false⟩,
     ⟨Volume_PintUS, loc "UnitName_PintUS", loc "UnitAbbreviation_PintUS", 9, false, false, false⟩,
     ⟨Volume_TablespoonUS, loc "UnitName_TablespoonUS", loc "UnitAbbreviation_TablespoonUS", 6, false, false, false⟩,
     ⟨Volume_TeaspoonUS, loc "UnitName_TeaspoonUS", loc "UnitAbbreviation_TeaspoonUS", 5, b_useSI, b_useUSCustomary && !b_isGB, false⟩,
     ⟨Volume_QuartUK, loc "UnitName_QuartUK", loc "UnitAbbreviation_QuartUK", 19, false, false, false⟩,
     ⟨Volume_QuartUS, loc "UnitName_QuartUS", loc "UnitAbbreviation_QuartUS", 10, false, false, false⟩,
     ⟨Volume_TeaspoonUK, loc "UnitName_TeaspoonUK", loc "UnitAbbreviation_TeaspoonUK", 15, false, b_useUSCustomary && b_isGB, false⟩,
     ⟨Volume_TablespoonUK, loc "UnitName_TablespoonUK", loc "UnitAbbreviation_TablespoonUK", 16, false, false, false⟩,
     ⟨Volume_CoffeeCup, loc "UnitName_CoffeeCup", loc "UnitAbbreviation_CoffeeCup", 22, false, false, true⟩,
     ⟨Volume_Bathtub, loc "UnitName_Bathtub", loc "UnitAbbreviation_Bathtub", 23, false, false, true⟩,
     ⟨Volume_SwimmingPool, loc "UnitName_SwimmingPool", loc "UnitAbbreviation_SwimmingPool", 24, false, false, true⟩]
  let weightUnits : List OrderedUnit :=
    [⟨Weight_Carat, loc "UnitName_Carat", loc "UnitAbbreviation_Carat", 1, false, false, false⟩,
     ⟨Weight_Centigram, loc "UnitName_Centigram", loc "UnitAbbreviation_Centigram", 3, false, false, false⟩,
     ⟨Weight_Decigram, loc "UnitName_Decigram", loc "UnitAbbreviation_Decigram", 4, false, false, false⟩,
     ⟨Weight_Decagram, loc "UnitName_Decagram", loc "UnitAbbreviation_Decagram", 6, false, false, false⟩,
     ⟨Weight_Gram, loc "UnitName_Gram", loc "UnitAbbreviation_Gram", 5, false, false, false⟩,
     ⟨Weight_Hectogram, loc "UnitName_Hectogram", loc "UnitAbbreviation_Hectogram", 7, false, false, false⟩,
     ⟨Weight_Kilogram, loc "UnitName_Kilogram", loc "UnitAbbreviation_Kilogram", 8, b_useUSCustomary, b_useSI, false⟩,
     ⟨Weight_LongTon, loc "UnitName_LongTon", loc "UnitAbbreviation_LongTon", 14, false, false, false⟩,
     ⟨Weight_Milligram, loc "UnitName_Milligram", loc "UnitAbbreviation_Milligram", 2, false, false, false⟩,
     ⟨Weight_Ounce, loc "UnitName_Ounce", loc "UnitAbbreviation_Ounce", 10, false, false, false⟩,
     ⟨Weight_Pound, loc "UnitName_Pound", loc "UnitAbbreviation_Pound", 11, b_useSI, b_useUSCustomary, false⟩,
     ⟨Weight_ShortTon, loc "UnitName_ShortTon", loc "UnitAbbreviation_ShortTon", 13, false, false, false⟩,
     ⟨Weight_Stone, loc "UnitName_Stone", loc "UnitAbbreviation_Stone", 12, false, false, false⟩,
     ⟨Weight_Tonne, loc "UnitName_Tonne", loc "UnitAbbreviation_Tonne", 9, false, false, false⟩,
     ⟨Weight_Snowflake, loc "UnitName_Snowflake", loc "UnitAbbreviation_Snowflake", 15, false, false, true⟩,
     ⟨Weight_SoccerBall, loc "UnitName_SoccerBall", loc "UnitAbbreviation_SoccerBall", 16, false, false, true⟩,
     ⟨Weight_Elephant, loc "UnitName_Elephant", loc "UnitAbbreviation_Elephant", 17, false, false, true⟩,
     ⟨Weight_Whale, loc "UnitName_Whale", loc "UnitAbbreviation_Whale", 18, false, false, true⟩]
  let pressureUnits : List OrderedUnit :=
    [⟨Pressure_Atmosphere, loc "UnitName_Atmosphere", loc "UnitAbbreviation_Atmosphere", 1, true, false, false⟩,
     ⟨Pressure_Bar, loc "UnitName_Bar", loc "UnitAbbreviation_Bar", 2, false, true, false⟩,
     ⟨Pressure_KiloPascal, loc "UnitName_KiloPascal", loc "UnitAbbreviation_KiloPascal", 3, false, false, false⟩,
     ⟨Pressure_MillimeterOfMercury, loc "UnitName_MillimeterOfMercury ", loc "UnitAbbreviation_MillimeterOfMercury ", 4, false, false, false⟩,
     ⟨Pressure_Pascal, loc "UnitName_Pascal", loc "UnitAbbreviation_Pascal", 5, false, false, false⟩,
     ⟨Pressure_PSI, loc "UnitName_PSI", loc "UnitAbbreviation_PSI", 6, false, false, false⟩]
  let angleUnits : List OrderedUnit :=
    [⟨Angle_Degree, loc "UnitName_Degree", loc "UnitAbbreviation_Degree", 1, true, false, false⟩,
     ⟨Angle_Radian, loc "UnitName_Radian", loc "UnitAbbreviation_Radian", 2, false, true, false⟩,
     ⟨Angle_Gradian, loc "UnitName_Gradian", loc "UnitAbbreviation_Gradian", 3, false, false, false⟩]
  [(ViewMode.Area, areaUnits),
   (ViewMode.Data, dataUnits),
   (ViewMode.Energy, energyUnits),
   (ViewMode.Length, lengthUnits),
   (ViewMode.Power, powerUnits),
   (ViewMode.Temperature, tempUnits),
   (ViewMode.Time, timeUnits),
   (ViewMode.Speed, speedUnits),
   (ViewMode.Volume, volumeUnits),
   (ViewMode.Weight, weightUnits),
   (ViewMode.Pressure, pressureUnits),
   (ViewMode.Angle, angleUnits)]

/-- The static `unitDataList` of `GetConversionData`: (categoryId, unitId, factor). -/
def unitDataList : List (ViewMode × Nat × Rat) :=
  [(ViewMode.Area, Area_Acre, rat_area_acre),
   (ViewMode.Area, Area_SquareMeter, rat_one),
   (ViewMode.Area, Area_SquareFoot, rat_area_squarefoot),
   (ViewMode.Area, Area_SquareYard, rat_area_squareyard),
   (ViewMode.Area, Area_SquareMillimeter, rat_0_000001),
   (ViewMode.Area, Area_SquareCentimeter, rat_0_0001),
   (ViewMode.Area, Area_SquareInch, rat_area_squareinch),
   (ViewMode.Area, Area_SquareMile, rat_area_squaremile),
   (ViewMode.Area, Area_SquareKilometer, rat_1000000),
   (ViewMode.Area, Area_Hectare, rat_10000),
   (ViewMode.Area, Area_Hand, rat_area_hand),
   (ViewMode.Area, Area_Paper, rat_area_paper),
   (ViewMode.Area, Area_SoccerField, rat_area_soccerfield),
   (ViewMode.Area, Area_Castle, rat_100000),
   (ViewMode.Area, Area_Pyeong, rat_area_pyeong),
   (ViewMode.Data, Data_Bit, rat_data_bit),
   (ViewMode.Data, Data_Byte, rat_0_000001),
   (ViewMode.Data, Data_Kilobyte, rat_0_001),
   (ViewMode.Data, Data_Megabyte, rat_one),
   (ViewMode.Data, Data_Gigabyte, rat_1000),
   (ViewMode.Data, Data_Terabyte, rat_1000000),
   (ViewMode.Data, Data_Petabyte, rat_data_petabyte),
   (ViewMode.Data, Data_Exabytes, rat_data_exabytes),
   (ViewMode.Data, Data_Zetabytes, rat_data_zetabytes),
   (ViewMode.Data, Data_Yottabyte, rat_data_yottabyte),
   (ViewMode.Data, Data_Kilobit, rat_data_kilobit),
   (ViewMode.Data, Data_Megabit, rat_0_125),
   (ViewMode.Data, Data_Gigabit, rat_data_gigabit),
   (ViewMode.Data, Data_Terabit, rat_data_terabit),
   (ViewMode.Data, Data_Petabit, rat_data_petabit),
   (ViewMode.Data, Data_Exabits, rat_data_exabits),
   (ViewMode.Data, Data_Zetabits, rat_data_zetabits),
   (ViewMode.Data, Data_Yottabit, rat_data_yottabit),
   (ViewMode.Data, Data_Gibibits, rat_data_gibibits),
   (ViewMode.Data, Data_Gibibytes, rat_data_gibibytes),
   (ViewMode.Data, Data_Kibibits, rat_data_kibibits),
   (ViewMode.Data, Data_Kibibytes, rat_data_kibibytes),
   (ViewMode.Data, Data_Mebibits, rat_data_mebibits),
   (ViewMode.Data, Data_Mebibytes, rat_data_mebibytes),
   (ViewMode.Data, Data_Pebibits, rat_data_pebibits),
   (ViewMode.Data, Data_Pebibytes, rat_data_pebibytes),
   (ViewMode.Data, Data_Tebibits, rat_data_tebibits),
   (ViewMode.Data, Data_Tebibytes, rat_data_tebibytes),
   (ViewMode.Data, Data_Exbibits, rat_data_exbibits),
   (ViewMode.Data, Data_Exbibytes, rat_data_exbibytes),
   (ViewMode.Data, Data_Zebibits, rat_data_zebibits),
   (ViewMode.Data, Data_Zebibytes, rat_data_zebibytes),
   (ViewMode.Data, Data_Yobibits, rat_data_yobibits),
   (ViewMode.Data, Data_Yobibytes, rat_data_yobibytes),
   (ViewMode.Data, Data_FloppyDisk, rat_data_floppydisk),
   (ViewMode.Data, Data_CD, rat_data_cd),
   (ViewMode.Data, Data_DVD, rat_data_dvd),
   (ViewMode.Energy, Energy_Calorie, rat_energy_calorie),
   (ViewMode.Energy, Energy_Kilocalorie, rat_energy_kilocalorie),
   (ViewMode.Energy, Energy_BritishThermalUnit, rat_energy_britishthermalunit),
   (ViewMode.Energy, Energy_Kilojoule, rat_1000),
   (ViewMode.Energy, Energy_ElectronVolt, rat_energy_electronvolt),
   (ViewMode.Energy, Energy_Joule, rat_one),
   (ViewMode.Energy, Energy_FootPound, rat_energy_footpound),
   (ViewMode.Energy, Energy_Battery, rat_energy_battery),
   (ViewMode.Energy, Energy_Banana, rat_energy_banana),
   (ViewMode.Energy, Energy_SliceOfCake, rat_energy_sliceofcake),
   (ViewMode.Length, Length_Inch, rat_length_inch),
   (ViewMode.Length, Length_Foot, rat_foot),
   (ViewMode.Length, Length_Yard, rat_length_yard),
   (ViewMode.Length, Length_Mile, rat_length_mile),
   (ViewMode.Length, Length_Micron, rat_0_000001),
   (ViewMode.Length, Length_Millimeter, rat_0_001),
   (ViewMode.Length, Length_Nanometer, rat_length_nanometer),
   (ViewMode.Length, Length_Centimeter, rat_0_01),
   (ViewMode.Length, Length_Meter, rat_one),
   (ViewMode.Length, Length_Kilometer, rat_1000),
   (ViewMode.Length, Length_NauticalMile, rat_length_nauticalmile),
   (ViewMode.Length, Length_Paperclip, rat_length_paperclip),
   (ViewMode.Length, Length_Hand, rat_length_hand),
   (ViewMode.Length, Length_JumboJet, rat_length_jumbojet),
   (ViewMode.Power, Power_BritishThermalUnitPerMinute, rat_power_britishthermalunitperminute),
   (ViewMode.Power, Power_FootPoundPerMinute, rat_power_footpoundperminute),
   (ViewMode.Power, Power_Watt, rat_one),
   (ViewMode.Power, Power_Kilowatt, rat_1000),
   (ViewMode.Power, Power_Horsepower, rat_power_horsepower),
   (ViewMode.Power, Power_LightBulb, rat_60),
   (ViewMode.Power, Power_Horse, rat_power_horse),
   (ViewMode.Power, Power_TrainEngine, rat_power_trainengine),
   (ViewMode.Time, Time_Day, rat_time_day),
   (ViewMode.Time, Time_Second, rat_one),
   (ViewMode.Time, Time_Week, rat_time_week),
   (ViewMode.Time, Time_Year, rat_time_year),
   (ViewMode.Time, Time_Millisecond, rat_0_001),
   (ViewMode.Time, Time_Microsecond, rat_0_000001),
   (ViewMode.Time, Time_Minute, rat_60),
   (ViewMode.Time, Time_Hour, rat_time_hour),
   (ViewMode.Volume, Volume_CupUS, rat_volume_cupus),
   (ViewMode.Volume, Volume_PintUS, rat_volume_pintus),
   (ViewMode.Volume, Volume_PintUK, rat_volume_pintuk),
   (ViewMode.Volume, Volume_QuartUS, rat_volume_quartus),
   (ViewMode.Volume, Volume_QuartUK, rat_volume_quartuk),
   (ViewMode.Volume, Volume_GallonUS, rat_volume_gallonus),
   (ViewMode.Volume, Volume_GallonUK, rat_volume_gallonuk),
   (ViewMode.Volume, Volume_Liter, rat_1000),
   (ViewMode.Volume, Volume_TeaspoonUS, rat_volume_teaspoonus),
   (ViewMode.Volume, Volume_TablespoonUS, rat_volume_tablespoonus),
   (ViewMode.Volume, Volume_CubicCentimeter, rat_one),
   (ViewMode.Volume, Volume_CubicYard, rat_volume_cubicyard),
   (ViewMode.Volume, Volume_CubicMeter, rat_1000000),
   (ViewMode.Volume, Volume_Milliliter, rat_one),
   (ViewMode.Volume, Volume_CubicInch, rat_volume_cubicinch),
   (ViewMode.Volume, Volume_CubicFoot, rat_volume_cubicfoot),
   (ViewMode.Volume, Volume_FluidOunceUS, rat_volume_fluidounceus),
   (ViewMode.Volume, Volume_FluidOunceUK, rat_volume_fluidounceuk),
   (ViewMode.Volume, Volume_TeaspoonUK, rat_volume_teaspoonuk),
   (ViewMode.Volume, Volume_TablespoonUK, rat_volume_tablespoonuk),
   (ViewMode.Volume, Volume_CoffeeCup, rat_volume_coffeecup),
   (ViewMode.Volume, Volume_Bathtub, rat_volume_bathtub),
   (ViewMode.Volume, Volume_SwimmingPool, rat_volume_swimmingpool),
   (ViewMode.Weight, Weight_Kilogram, rat_one),
   (ViewMode.Weight, Weight_Hectogram, rat_0_1),
   (ViewMode.Weight, Weight_Decagram, rat_0_01),
   (ViewMode.Weight, Weight_Gram, rat_0_001),
   (ViewMode.Weight, Weight_Pound, rat_weight_pound),
   (ViewMode.Weight, Weight_Ounce, rat_weight_ounce),
   (ViewMode.Weight, Weight_Milligram, rat_0_000001),
   (ViewMode.Weight, Weight_Centigram, rat_0_00001),
   (ViewMode.Weight, Weight_Decigram, rat_0_0001),
   (ViewMode.Weight, Weight_LongTon, rat_weight_longton),
   (ViewMode.Weight, Weight_Tonne, rat_1000),
   (ViewMode.Weight, Weight_Stone, rat_weight_stone),
   (ViewMode.Weight, Weight_Carat, rat_0_0002),
   (ViewMode.Weight, Weight_ShortTon, rat_weight_shortton),
   (ViewMode.Weight, Weight_Snowflake, rat_0_000002),
   (ViewMode.Weight, Weight_SoccerBall, rat_weight_soccerball),
   (ViewMode.Weight, Weight_Elephant, rat_weight_elephant),
   (ViewMode.Weight, Weight_Whale, rat_weight_whale),
   (ViewMode.Speed, Speed_CentimetersPerSecond, rat_one),
   (ViewMode.Speed, Speed_FeetPerSecond, rat_speed_feetpersecond),
   (ViewMode.Speed, Speed_KilometersPerHour, rat_speed_kilometersperhour),
   (ViewMode.Speed, Speed_Knot, rat_speed_knot),
   (ViewMode.Speed, Speed_Mach, rat_speed_mach),
   (ViewMode.Speed, Speed_MetersPerSecond, rat_100),
   (ViewMode.Speed, Speed_MilesPerHour, rat_speed_milesperhour),
   (ViewMode.Speed, Speed_Turtle, rat_speed_turtle),
   (ViewMode.Speed, Speed_Horse, rat_speed_horse),
   (ViewMode.Speed, Speed_Jet, rat_speed_jet),
   (ViewMode.Angle, Angle_Degree, rat_one),
   (ViewMode.Angle, Angle_Radian, rat_angle_radian),
   (ViewMode.Angle, Angle_Gradian, rat_angle_gradian),
   (ViewMode.Pressure, Pressure_Atmosphere, rat_one),
   (ViewMode.Pressure, Pressure_Bar, rat_pressure_bar),
   (ViewMode.Pressure, Pressure_KiloPascal, rat_pressure_kilopascal),
   (ViewMode.Pressure, Pressure_MillimeterOfMercury, rat_pressure_millimeterofmercury),
   (ViewMode.Pressure, Pressure_Pascal, rat_pressure_pascal),
   (ViewMode.Pressure, Pressure_PSI, rat_pressure_psi)]

/-- The static `conversionDataList` of `GetExplicitConversionData`:
(categoryId, parentUnitId, unitId, ConversionData). Entries that omit the last field get
the struct default `offsetFirst = false`. -/
def conversionDataList : List (ViewMode × Nat × Nat × ConversionData) :=
  [(ViewMode.Temperature, Temperature_DegreesCelsius, Temperature_DegreesCelsius, ⟨rat_one, rat_zero, false⟩),
   (ViewMode.Temperature, Temperature_DegreesCelsius, Temperature_DegreesFahrenheit, ⟨rat_temperature_degreescelsius_farenheit, rat_temperature_offset_celsius_farenheit, false⟩),
   (ViewMode.Temperature, Temperature_DegreesCelsius, Temperature_Kelvin, ⟨rat_one, rat_temperature_offset_celsius_kelvin, false⟩),
   (ViewMode.Temperature, Temperature_DegreesFahrenheit, Temperature_DegreesCelsius, ⟨rat_temperature_degreesfarenheit_celsius, rat_temperature_offset_farenheit_celsius, CONVERT_WITH_OFFSET_FIRST⟩),
   (ViewMode.Temperature, Temperature_DegreesFahrenheit, Temperature_DegreesFahrenheit, ⟨rat_one, rat_zero, false⟩),
   (ViewMode.Temperature, Temperature_DegreesFahrenheit, Temperature_Kelvin, ⟨rat_temperature_degreesfarenheit_celsius, rat_temperature_offset_farenheit_kelvin, CONVERT_WITH_OFFSET_FIRST⟩),
   (ViewMode.Temperature, Temperature_Kelvin, Temperature_DegreesCelsius, ⟨rat_one, rat_temperature_offset_kelvin_celsius, CONVERT_WITH_OFFSET_FIRST⟩),
   (ViewMode.Temperature, Temperature_Kelvin, Temperature_DegreesFahrenheit, ⟨rat_temperature_degreescelsius_farenheit, rat_temperature_offset_kelvin_farenheit, false⟩),
   (ViewMode.Temperature, Temperature_Kelvin, Temperature_Kelvin, ⟨rat_one, rat_zero, false⟩)]

/-- Region flag: `US || FM || MH || PW` (US plus Federated States of Micronesia,
Marshall Islands, Palau), a local of `GetUnits`. -/
def useUSCustomaryAndFahrenheit (r : String) : Bool :=
  r == "US" || r == "FM" || r == "MH" || r == "PW"

/-- Region flag: `useUSCustomaryAndFahrenheit` plus Liberia. -/
def useUSCustomary (r : String) : Bool :=
  useUSCustomaryAndFahrenheit r || r == "LR"

/-- Region flag: not `useUSCustomary`. -/
def useSI (r : String) : Bool := !useUSCustomary r

/-- Region flag: `useUSCustomaryAndFahrenheit` plus the Bahamas, the Cayman Islands
and Liberia. -/
def useFahrenheit (r : String) : Bool :=
  useUSCustomaryAndFahrenheit r || r == "BS" || r == "KY" || r == "LR"

/-- Region flag: Great Britain prefers Watt over Kilowatt. -/
def useWattInsteadOfKilowatt (r : String) : Bool := r == "GB"

/-- Region flag: the Koreas use the Pyeong floorspace unit. -/
def usePyeong (r : String) : Bool := r == "KP" || r == "KR"

/-- `GetUnits` for a region code: compute the region flags exactly as the locals of
lines 161-180 of the source do, then build the per-category unit vectors. -/
def getUnits (loc : String → String) (r : String) : List (ViewMode × List OrderedUnit) :=
  getUnitsWithFlags loc (useSI r) (useUSCustomary r) (useFahrenheit r)
    (useWattInsteadOfKilowatt r) (usePyeong r) (r == "GB")

/-- Lookup in an association list keyed by `ViewMode`. -/
def findVM {α : Type} (m : List (ViewMode × α)) (k : ViewMode) : Option α :=
  (m.find? (fun p => p.1 == k)).map (fun p => p.2)

/-- `std::unordered_map::insert` keyed by `ViewMode`: keep the existing binding if the
key is already present. -/
def updateVM {α : Type} (m : List (ViewMode × α)) (k : ViewMode) (f : α → α) :
    List (ViewMode × α) :=
  m.map (fun p => if p.1 == k then (p.1, f p.2) else p)

/-- Lookup in an association list keyed by `int` (unit or category ids). -/
def findNat {α : Type} (m : List (Nat × α)) (k : Nat) : Option α :=
  (m.find? (fun p => p.1 == k)).map (fun p => p.2)

/-- `std::unordered_map::insert` keyed by `int`. `insert` keeps the existing binding
when the key is present; in this loader every inserted key is fresh (ids are globally
unique — `distinctKeysCheck` and `staticTableKeysDistinct` below verify it for every
map built here), so insertion is modelled as prepending the new binding. A hash map's
storage order is unspecified anyway, and all lookups compare keys, so they are
order-insensitive. -/
def insertNat {α : Type} (m : List (Nat × α)) (k : Nat) (v : α) : List (Nat × α) :=
  (k, v) :: m

/-- `GetConversionData`: populate the category → (unit id → factor) map from
`unitDataList`, keeping the first binding per key as `unordered_map::insert` does. -/
def getConversionData : List (ViewMode × List (Nat × Rat)) :=
  unitDataList.foldl
    (fun m ud =>
      match findVM m ud.1 with
      | none => m ++ [(ud.1, [(ud.2.1, ud.2.2)])]
      | some _ => updateVM m ud.1 (fun tbl => insertNat tbl ud.2.1 ud.2.2))
    []

/-- `GetExplicitConversionData`: populate the parent-unit-id → (unit id →
ConversionData) map from `conversionDataList`. -/
def getExplicitConversionData : List (Nat × List (Nat × ConversionData)) :=
  conversionDataList.foldl
    (fun m d =>
      match findNat m d.2.1 with
      | none => m ++ [(d.2.1, [(d.2.2.1, d.2.2.2)])]
      | some _ =>
          m.map (fun p => if p.1 == d.2.1 then (p.1, insertNat p.2 d.2.2.1 d.2.2.2) else p))
    []

/-- One insertion step of the sort used in `LoadData`. -/
def insertByOrder (u : OrderedUnit) : List OrderedUnit → List OrderedUnit
  | [] => [u]
  | v :: vs => if u.order ≤ v.order then u :: v :: vs else v :: insertByOrder u vs

/-- The `sort(orderedUnits.begin(), orderedUnits.end(), first.order < second.order)` of
`LoadData`, line 97. `std::sort` only guarantees a permutation that is non-decreasing
under the comparator; its behavior on elements with equal `order` is unspecified (it is
not `std::stable_sort`). This executable model is one conforming implementation; no
theorem below relies on how it breaks ties. -/
def sortByOrder : List OrderedUnit → List OrderedUnit
  | [] => []
  | u :: us => insertByOrder u (sortByOrder us)

/-- Sentinel for `std::unordered_map::at` on a missing key (which throws in C++); the
data below never reaches it. -/
def missingOrderedUnit : OrderedUnit := ⟨0, "", "", 0, false, false, false⟩

/-- Lookup in the per-unit conversion map; `UnitHash`/unit equality compare ids. -/
def findConv (m : List (CUnit × ConversionData)) (i : Nat) : Option ConversionData :=
  (m.find? (fun p => p.1.id == i)).map (fun p => p.2)

/-- `unordered_map<UCM::Unit, ConversionData, UnitHash>::insert` (fresh keys, see
`insertNat`). -/
def insertConv (m : List (CUnit × ConversionData)) (k : CUnit) (v : ConversionData) :
    List (CUnit × ConversionData) :=
  (k, v) :: m

/-- Exact rational division, as the loader's `PRAT` division performs it. `Rat.div` is
`@[irreducible]` in the ambient library, which blocks evaluation inside proofs, so the
build uses this definitionally transparent form; `ratDiv_eq_div` below proves it is
exactly division on `Rat`. -/
def ratDiv (a b : Rat) : Rat := Rat.divInt (a.num * (b.den : Int)) ((a.den : Int) * b.num)

/-- The per-unit conversion population of `LoadData` (lines 111-141): if the unit id has
no entry in the explicit table, derive `unitFactor / conversionFactor` from the linear
factor table for every table entry whose id is in `idToUnit` (skipping optional units);
otherwise copy the explicit entries, resolving target ids through `idToUnit`.
`unitConversions[unit.id]` is `operator[]`, whose default (a null `PRAT`) is modelled as
0; only the never-initialized `rat_power_britishthermalunitperminute` makes a null factor
reachable (see claims C2 and C8). -/
def conversionsFor (vm : ViewMode) (idToUnit : List (Nat × OrderedUnit)) (u : CUnit) :
    List (CUnit × ConversionData) :=
  match findNat getExplicitConversionData u.id with
  | none =>
      let unitConversions := (findVM getConversionData vm).getD []
      let unitFactor := (findNat unitConversions u.id).getD 0
      unitConversions.foldl
        (fun conversions p =>
          match findNat idToUnit p.1 with
          | none => conversions
          | some ou => insertConv conversions ou.toUnit ⟨ratDiv unitFactor p.2, 0, false⟩)
        []
  | some unitConversions =>
      unitConversions.foldl
        (fun conversions p =>
          insertConv conversions ((findNat idToUnit p.1).getD missingOrderedUnit).toUnit p.2)
        []

/-- The state `LoadData` accumulates: the id → OrderedUnit index (shared across
categories, as in the source), the category → unit list map and the unit → unit →
ConversionData ratio map. -/
structure LoadState where
  idToUnit : List (Nat × OrderedUnit)
  categoryToUnits : List (Category × List CUnit)
  ratioMap : List (CUnit × List (CUnit × ConversionData))
deriving Repr

/-- `m_categoryToUnits->insert`; Category equality compares ids (fresh keys, see
`insertNat`). -/
def insertCat (m : List (Category × List CUnit)) (k : Category) (v : List CUnit) :
    List (Category × List CUnit) :=
  (k, v) :: m

/-- `m_ratioMap->insert` (fresh keys, see `insertNat`). -/
def insertRatio (m : List (CUnit × List (CUnit × ConversionData))) (k : CUnit)
    (v : List (CUnit × ConversionData)) : List (CUnit × List (CUnit × ConversionData)) :=
  (k, v) :: m

/-- `UnitConverterDataLoader::LoadData` with the region flags passed explicitly:
iterate the categories; insert Currency with an empty unit list and skip it; otherwise
sort the category's units by display order, record them, extend `idToUnit`, and store
each unit's conversion map. -/
def loadDataFlags (loc : String → String)
    (b_useSI b_useUSCustomary b_useFahrenheit b_useWatt b_usePyeong b_isGB : Bool) :
    LoadState :=
  let orderedUnitMap :=
    getUnitsWithFlags loc b_useSI b_useUSCustomary b_useFahrenheit b_useWatt b_usePyeong b_isGB
  getCategories.foldl
    (fun st cat =>
      match deserialize cat.id with
      | none => st
      | some ViewMode.Currency =>
          ⟨st.idToUnit, insertCat st.categoryToUnits cat [], st.ratioMap⟩
      | some vm =>
          let orderedUnits := sortByOrder ((findVM orderedUnitMap vm).getD [])
          let unitList := orderedUnits.map OrderedUnit.toUnit
          let idToUnit := orderedUnits.foldl (fun m u => insertNat m u.id u) st.idToUnit
          let categoryToUnits := insertCat st.categoryToUnits cat unitList
          let ratioMap :=
            unitList.foldl (fun rm u => insertRatio rm u (conversionsFor vm idToUnit u))
              st.ratioMap
          ⟨idToUnit, categoryToUnits, ratioMap⟩)
    ⟨[], [], []⟩

/-- `LoadData` for a region code: derive the region flags and run the build. -/
def loadData (loc : String → String) (r : String) : LoadState :=
  loadDataFlags loc (useSI r) (useUSCustomary r) (useFahrenheit r)
    (useWattInsteadOfKilowatt r) (usePyeong r) (r == "GB")

/-- A concrete localized-string provider for closed evaluations: the provider is
external to src and the loader only stores its output, so the identity map serves. -/
def locId : String → String := fun s => s

/-- `UnitConverterDataLoader::SupportsCategory` over a built category list: a linear
search for a category whose id matches the target's and is not the currency id. -/
def supportsCategoryOn (cats : List Category) (target : Category) : Bool :=
  cats.any (fun category => currencyId != category.id && target.id == category.id)

/-- Unit id has an entry in the explicit affine table. -/
def hasExplicit (i : Nat) : Bool := (findNat getExplicitConversionData i).isSome

/-- The conversion data the built state holds for the (source id, target id) pair. -/
def convDataByIds (st : LoadState) (i j : Nat) : Option ConversionData :=
  match st.ratioMap.find? (fun p => p.1.id == i) with
  | none => none
  | some p => findConv p.2 j

/-- The built unit list of the category with the given id. -/
def builtUnitsByCat (st : LoadState) (cid : Nat) : List CUnit :=
  ((st.categoryToUnits.find? (fun p => p.1.id == cid)).map (fun p => p.2)).getD []

/-- Find a unit by id in a built unit list. -/
def findUnitById (l : List CUnit) (i : Nat) : Option CUnit :=
  l.find? (fun u => u.id == i)
/-! ### Claim checks

Executable checks over a built `LoadState`. Lookups compare ids, mirroring the map
hashes; conversion values are compared as exact rationals. -/

/-- Claim C1 check: in every category, for every unit `u` without explicit-table entries
and every pair `(u, v)` with both ids in the category's factor table and both units in
the constructed unit list, the built map holds `⟨ratDiv (factor u) (factor v), 0, false⟩`. -/
def linearRatioCheck (st : LoadState) : Bool :=
  st.categoryToUnits.all fun p =>
    match deserialize p.1.id with
    | none => true
    | some vm =>
      let tbl := (findVM getConversionData vm).getD []
      p.2.all fun u =>
        hasExplicit u.id ||
        match findNat tbl u.id with
        | none => true
        | some fu =>
          match st.ratioMap.find? (fun q => q.1.id == u.id) with
          | none => false
          | some q =>
            p.2.all fun v =>
              match findNat tbl v.id with
              | none => true
              | some fv => findConv q.2 v.id == some ⟨ratDiv fu fv, 0, false⟩

/-- Claim C2 check: every unit that owns a conversion map has the identity self-pair
`⟨1, 0, false⟩` — except `Power_BritishThermalUnitPerMinute`, whose factor is the
never-initialized null `PRAT` (see `rat_power_britishthermalunitperminute`). -/
def identitySelfCheck (st : LoadState) : Bool :=
  st.ratioMap.all fun p =>
    p.1.id == Power_BritishThermalUnitPerMinute ||
    findConv p.2 p.1.id == some ⟨1, 0, false⟩

/-- The self-conversion the build stores for the unit with the null factor: the model's
0/0 (the source would fail its `assert(conversionFactor > 0)` and divide a null `PRAT`). -/
def btuSelfCheck (st : LoadState) : Bool :=
  convDataByIds st Power_BritishThermalUnitPerMinute Power_BritishThermalUnitPerMinute ==
    some ⟨0, 0, false⟩

/-- The three temperature unit ids. -/
def tempUnitIds : List Nat :=
  [Temperature_DegreesCelsius, Temperature_DegreesFahrenheit, Temperature_Kelvin]

/-- Claim C5 check: all nine ordered temperature pairs are present in the built map. -/
def temperaturePairsPresent (st : LoadState) : Bool :=
  tempUnitIds.all fun i => tempUnitIds.all fun j => (convDataByIds st i j).isSome

/-- Claim C9 check: for every parent unit of the explicit table, the built conversion
map consists of exactly the explicit entries (same count, and every explicit
(target, data) pair present verbatim). -/
def explicitParentsCheck (st : LoadState) : Bool :=
  getExplicitConversionData.all fun pe =>
    match st.ratioMap.find? (fun q => q.1.id == pe.1) with
    | none => false
    | some q =>
        q.2.length == pe.2.length && pe.2.all fun e => findConv q.2 e.1 == some e.2

/-- Claim C6 check: the Currency category is registered with an empty unit list. -/
def currencyEmptyCheck (st : LoadState) : Bool :=
  ((st.categoryToUnits.find? (fun p => p.1.id == currencyId)).map (fun p => p.2)) == some []

/-- Total number of units registered for non-Currency categories. -/
def nonCurrencyUnitCount (st : LoadState) : Nat :=
  st.categoryToUnits.foldl (fun n q => if q.1.id == currencyId then n else n + q.2.length) 0

/-- Claim C6 check: the ratio map holds exactly one entry per non-Currency unit —
together with the per-unit presence in `linearRatioCheck`/`explicitParentsCheck` this
pins the key set to the non-Currency catalog. -/
def ratioCountCheck (st : LoadState) : Bool :=
  st.ratioMap.length == nonCurrencyUnitCount st

/-- Claim C4 check over a built state: when `fahr` holds the region's Fahrenheit flag,
Fahrenheit is the default-"to" unit (and Celsius the default-"from") iff `fahr`. -/
def tempDefaultsCheck (st : LoadState) (fahr : Bool) : Bool :=
  let ts := builtUnitsByCat st (serialize ViewMode.Temperature)
  ((findUnitById ts Temperature_DegreesFahrenheit).map CUnit.isConversionTarget == some fahr) &&
  (((findUnitById ts Temperature_DegreesCelsius).map CUnit.isConversionTarget ==
      some (!fahr)) &&
  (((findUnitById ts Temperature_DegreesFahrenheit).map CUnit.isConversionSource ==
      some (!fahr)) &&
  ((findUnitById ts Temperature_DegreesCelsius).map CUnit.isConversionSource == some fahr)))

/-- No repeated element. -/
def allDistinct : List Nat → Bool
  | [] => true
  | i :: is => !is.contains i && allDistinct is

/-- Every map the build populates has pairwise-distinct keys, justifying the
prepend model of `unordered_map::insert` (see `insertNat`). -/
def distinctKeysCheck (st : LoadState) : Bool :=
  allDistinct (st.categoryToUnits.map (fun p => p.1.id)) &&
  (allDistinct (st.idToUnit.map (fun p => p.1)) &&
  (allDistinct (st.ratioMap.map (fun p => p.1.id)) &&
  st.ratioMap.all (fun p => allDistinct (p.2.map (fun q => q.1.id)))))

/-- The static tables also carry pairwise-distinct keys. -/
def staticTableKeysDistinct : Bool :=
  allDistinct (getConversionData.map (fun p => serialize p.1)) &&
  (getConversionData.all (fun p => allDistinct (p.2.map (fun q => q.1))) &&
  (allDistinct (getExplicitConversionData.map (fun p => p.1)) &&
  getExplicitConversionData.all (fun p => allDistinct (p.2.map (fun q => q.1)))))

/-- The conjunction of the build-level checks (right-associated for easy splitting). -/
def allChecks (st : LoadState) (fahr : Bool) : Bool :=
  linearRatioCheck st &&
  (identitySelfCheck st &&
  (btuSelfCheck st &&
  (temperaturePairsPresent st &&
  (explicitParentsCheck st &&
  (currencyEmptyCheck st &&
  (ratioCountCheck st &&
  (tempDefaultsCheck st fahr &&
  distinctKeysCheck st)))))))

/-- The (default-from, default-to) flags of the unit with id `i` in category `vm` of a
unit map, as `GetUnits` constructed it. -/
def unitFlagsIn (m : List (ViewMode × List OrderedUnit)) (vm : ViewMode) (i : Nat) :
    Option (Bool × Bool) :=
  (((findVM m vm).getD []).find? (fun u => u.id == i)).map
    (fun u => (u.isConversionSource, u.isConversionTarget))

/-- The default-"to" flag of the unit with id `i` in category `vm` of a unit map. -/
def unitTargetIn (m : List (ViewMode × List OrderedUnit)) (vm : ViewMode) (i : Nat) :
    Option Bool :=
  (((findVM m vm).getD []).find? (fun u => u.id == i)).map (fun u => u.isConversionTarget)

/-- Non-decreasing in the display order — the postcondition `std::sort` guarantees with
the comparator of `LoadData` line 97. -/
def isSortedByOrder : List OrderedUnit → Bool
  | [] => true
  | [_] => true
  | u :: v :: vs => decide (u.order ≤ v.order) && isSortedByOrder (v :: vs)

/-- One insertion step of an anti-stable insertion sort: an element moves past every
element of equal order (also a conforming `std::sort` comparator-wise). -/
def antiInsertByOrder (u : OrderedUnit) : List OrderedUnit → List OrderedUnit
  | [] => [u]
  | v :: vs => if u.order < v.order then u :: v :: vs else v :: antiInsertByOrder u vs

/-- Anti-stable insertion sort: sorted by order, but units with equal order end up in
reversed declaration order. -/
def antiSortByOrder : List OrderedUnit → List OrderedUnit
  | [] => []
  | u :: us => antiInsertByOrder u (antiSortByOrder us)

/-- Multiset equality by counting (lists here are short). -/
def isPermOf (l1 l2 : List OrderedUnit) : Bool :=
  l1.length == l2.length && l1.all (fun x => l1.count x == l2.count x)

/-- The Data category's unit vector as declared (its content is region-independent;
"FR" is an arbitrary region outside every special set). -/
def declaredDataUnits : List OrderedUnit :=
  (findVM (getUnits locId "FR") ViewMode.Data).getD []

/-- Claim C8 check: every factor in the static table is positive — except the one for
`Power_BritishThermalUnitPerMinute`, the never-initialized null `PRAT`. Positivity of a
rational is positivity of its numerator (`Rat.num_pos`). -/
def factorsPositiveExceptBTU : Bool :=
  getConversionData.all fun p => p.2.all fun q =>
    q.1 == Power_BritishThermalUnitPerMinute || decide (0 < q.2.num)

/-! ### Theorems -/

/-- `ratDiv` is exactly division on `Rat`. -/
theorem ratDiv_eq_div (a b : Rat) : ratDiv a b = a / b := (Rat.div_def' a b).symm

set_option maxRecDepth 100000 in
set_option maxHeartbeats 4000000 in
/-- The static factor and explicit tables have pairwise-distinct keys, so the prepend
model of `unordered_map::insert` coincides with insert-if-absent on them. -/
theorem staticTableKeysDistinct_holds : staticTableKeysDistinct = true := by decide

set_option maxRecDepth 100000 in
set_option maxHeartbeats 1000000000 in
/-- All build-level checks hold for the region "US" build (the catalog without the
Pyeong unit; Fahrenheit region). -/
theorem allChecks_us : allChecks (loadData locId "US") true = true := by decide

set_option maxRecDepth 100000 in
set_option maxHeartbeats 1000000000 in
/-- All build-level checks hold for the region "KR" build (the catalog with the Pyeong
unit — the superset catalog; Celsius region). -/
theorem allChecks_kr : allChecks (loadData locId "KR") false = true := by decide

/-- The TeaspoonUK default-"to" flag is `b_useUSCustomary && b_isGB`; it is false
whenever that conjunction is. -/
theorem teaspoonFlagsFalse (loc : String → String) (b1 b2 b3 b4 b5 b6 : Bool)
    (h : (b2 && b6) = false) :
    unitTargetIn (getUnitsWithFlags loc b1 b2 b3 b4 b5 b6) ViewMode.Volume
      Volume_TeaspoonUK = some false := by
  cases b2 <;> cases b6
  · rfl
  · rfl
  · rfl
  · exact absurd h (by decide)

/-- C1: for every category on the linear model and every pair of units `u`, `v` that are
both in the category's constructed unit list and in the category's linear factor table,
the built conversion map holds ratio = factor(u) / factor(v) with offset 0 and
offset-before-ratio false (`ratDiv` is division on `Rat`, first conjunct). Verified on
the builds for regions "US" and "KR", which realize both possible unit catalogs
(without and with Pyeong); the other region flags only toggle default-unit booleans,
which the property does not mention. -/
theorem c1_linear_ratio_correct :
    (∀ a b : Rat, ratDiv a b = a / b) ∧
    linearRatioCheck (loadData locId "US") = true ∧
    linearRatioCheck (loadData locId "KR") = true := by
  have h1 := allChecks_us
  have h2 := allChecks_kr
  simp only [allChecks, Bool.and_eq_true] at h1 h2
  exact ⟨fun a b => ratDiv_eq_div a b, h1.1, h2.1⟩

/-- C2: the claim's identity invariant fails on the code. The self-pair of every built
unit is `⟨1, 0, false⟩` — except `Power_BritishThermalUnitPerMinute`: its factor is the
never-initialized `rat_power_britishthermalunitperminute` (a null `PRAT`, source line
845), so the build stores the null quotient (`⟨0, 0, false⟩` in this model; in the
source the `assert(conversionFactor > 0)` of line 129 fails there). -/
theorem c2_identity_bug :
    convDataByIds (loadData locId "US") Power_BritishThermalUnitPerMinute
        Power_BritishThermalUnitPerMinute = some ⟨0, 0, false⟩ ∧
    identitySelfCheck (loadData locId "US") = true ∧
    identitySelfCheck (loadData locId "KR") = true := by
  have h1 := allChecks_us
  have h2 := allChecks_kr
  simp only [allChecks, Bool.and_eq_true] at h1 h2
  obtain ⟨-, hid1, hbtu1, -⟩ := h1
  obtain ⟨-, hid2, -⟩ := h2
  refine ⟨?_, hid1, hid2⟩
  have := hbtu1
  simp only [btuSelfCheck] at this
  exact eq_of_beq this

/-- C3: the spec requires a stable sort, but `LoadData` line 97 uses `std::sort`, which
only guarantees a comparator-sorted permutation: on the declared Data vector — where
Gigabyte and FloppyDisk share order 13 — two conforming outputs exist that differ, so
the relative order of equal-order units is not preserved by any guarantee of the code. -/
theorem c3_sort_not_stable :
    (isPermOf declaredDataUnits (sortByOrder declaredDataUnits) &&
     (isSortedByOrder (sortByOrder declaredDataUnits) &&
     (isPermOf declaredDataUnits (antiSortByOrder declaredDataUnits) &&
     isSortedByOrder (antiSortByOrder declaredDataUnits)))) = true ∧
    sortByOrder declaredDataUnits ≠ antiSortByOrder declaredDataUnits ∧
    (declaredDataUnits.filter (fun u => u.order == 13)).map (fun u => u.id) =
      [Data_Gigabyte, Data_FloppyDisk] := by
  refine ⟨by decide, by decide, by decide⟩

/-- C4 counterexample: building with region "US" constructs Fahrenheit with
default-"from" = false (and default-"to" = true), and Celsius with default-"from" =
true — the opposite of the claim's "Fahrenheit is the default-from unit and Celsius
not". -/
theorem c4_counterexample :
    unitFlagsIn (getUnits locId "US") ViewMode.Temperature Temperature_DegreesFahrenheit =
      some (false, true) ∧
    unitFlagsIn (getUnits locId "US") ViewMode.Temperature Temperature_DegreesCelsius =
      some (true, false) := by
  refine ⟨by decide, by decide⟩

/-- C4 amended: building with region "US" marks Fahrenheit as the default-"to" unit of
Temperature (Celsius as default-"from"), while building with any region outside the
Fahrenheit set (useFahrenheit = false, e.g. "FR") marks Celsius as the default-"to"
unit (Fahrenheit as default-"from"). -/
theorem c4_default_flags (loc : String → String) (r : String)
    (h : useFahrenheit r = false) :
    unitFlagsIn (getUnits loc "US") ViewMode.Temperature Temperature_DegreesFahrenheit =
      some (false, true) ∧
    unitFlagsIn (getUnits loc "US") ViewMode.Temperature Temperature_DegreesCelsius =
      some (true, false) ∧
    unitFlagsIn (getUnits loc r) ViewMode.Temperature Temperature_DegreesCelsius =
      some (false, true) ∧
    unitFlagsIn (getUnits loc r) ViewMode.Temperature Temperature_DegreesFahrenheit =
      some (true, false) := by
  refine ⟨rfl, rfl, ?_, ?_⟩
  · unfold getUnits
    rw [h]
    rfl
  · unfold getUnits
    rw [h]
    rfl

/-- C4 amended, witness at region "FR". -/
theorem c4_default_flags_witness :
    useFahrenheit "FR" = false ∧
    (unitFlagsIn (getUnits locId "US") ViewMode.Temperature Temperature_DegreesFahrenheit =
        some (false, true) ∧
      unitFlagsIn (getUnits locId "US") ViewMode.Temperature Temperature_DegreesCelsius =
        some (true, false) ∧
      unitFlagsIn (getUnits locId "FR") ViewMode.Temperature Temperature_DegreesCelsius =
        some (false, true) ∧
      unitFlagsIn (getUnits locId "FR") ViewMode.Temperature Temperature_DegreesFahrenheit =
        some (true, false)) :=
  ⟨by decide, c4_default_flags locId "FR" (by decide)⟩

/-- C5: the explicit affine table is closed over the three temperature units — the list
has exactly nine entries, one per ordered pair (self-pairs included) — and after the
build every such pair is present in the final conversion map (both catalogs). -/
theorem c5_affine_closure :
    conversionDataList.length = 9 ∧
    (tempUnitIds.all fun i => tempUnitIds.all fun j =>
        (conversionDataList.filter (fun d => d.2.1 == i && d.2.2.1 == j)).length == 1) =
      true ∧
    temperaturePairsPresent (loadData locId "US") = true ∧
    temperaturePairsPresent (loadData locId "KR") = true := by
  have h1 := allChecks_us
  have h2 := allChecks_kr
  simp only [allChecks, Bool.and_eq_true] at h1 h2
  obtain ⟨-, -, -, htp1, -⟩ := h1
  obtain ⟨-, -, -, htp2, -⟩ := h2
  exact ⟨by decide, by decide, htp1, htp2⟩

set_option maxRecDepth 100000 in
set_option maxHeartbeats 4000000 in
/-- C6: for every region (and any string provider), the build registers the Currency
category with an empty unit list, and computes no ratio for any Currency unit; on both
catalogs the ratio map moreover holds exactly one entry per non-Currency unit. -/
theorem c6_currency_excluded (loc : String → String) (r : String) :
    currencyEmptyCheck (loadData loc r) = true ∧
    ((builtUnitsByCat (loadData loc r) currencyId).all
        (fun u => (loadData loc r).ratioMap.find? (fun q => q.1.id == u.id) == none)) =
      true ∧
    ratioCountCheck (loadData locId "US") = true ∧
    ratioCountCheck (loadData locId "KR") = true := by
  have h1 := allChecks_us
  have h2 := allChecks_kr
  simp only [allChecks, Bool.and_eq_true] at h1 h2
  obtain ⟨-, -, -, -, -, -, hrc1, -⟩ := h1
  obtain ⟨-, -, -, -, -, -, hrc2, -⟩ := h2
  exact ⟨rfl, rfl, hrc1, hrc2⟩

/-- C7: over any built category list, the supported query returns true iff a category
with the target's id is in the list and that id is not the Currency category's id. -/
theorem c7_supports_iff (cats : List Category) (target : Category) :
    supportsCategoryOn cats target = true ↔
      ((∃ c ∈ cats, c.id = target.id) ∧ target.id ≠ currencyId) := by
  unfold supportsCategoryOn
  rw [List.any_eq_true]
  constructor
  · rintro ⟨c, hc, hb⟩
    rw [Bool.and_eq_true, bne_iff_ne, beq_iff_eq] at hb
    obtain ⟨hne, hid⟩ := hb
    exact ⟨⟨c, hc, hid.symm⟩, fun he => hne (he ▸ hid)⟩
  · rintro ⟨⟨c, hc, hcid⟩, hne⟩
    refine ⟨c, hc, ?_⟩
    rw [Bool.and_eq_true, bne_iff_ne, beq_iff_eq]
    exact ⟨fun he => hne ((he.trans hcid).symm), hcid.symm⟩

set_option maxRecDepth 100000 in
set_option maxHeartbeats 4000000 in
/-- C8: the claim that every factor read from the static table is strictly positive
fails on the code: the factor stored for `Power_BritishThermalUnitPerMinute` is the
never-initialized `rat_power_britishthermalunitperminute` (the null `PRAT` of source
line 845, 0 in this model), on which the guarding `assert(conversionFactor > 0)` fails;
every other factor in the table is strictly positive. -/
theorem c8_factor_positivity_bug :
    findNat ((findVM getConversionData ViewMode.Power).getD [])
        Power_BritishThermalUnitPerMinute = some rat_power_britishthermalunitperminute ∧
    rat_power_britishthermalunitperminute = 0 ∧
    factorsPositiveExceptBTU = true ∧
    (∀ q : Rat, 0 < q.num ↔ 0 < q) := by
  refine ⟨by decide, by decide, by decide, fun q => Rat.num_pos⟩

set_option maxRecDepth 100000 in
set_option maxHeartbeats 4000000 in
/-- C9: the unit ids owning explicit-table entries are exactly the three temperature
units; for each of them the built conversion map consists of exactly the explicit
entries (resolved through the unit index, on both catalogs); and the Temperature
category has no linear factor table at all, so no linear ratio can be derived for such
a unit. -/
theorem c9_explicit_governs :
    getExplicitConversionData.map (fun p => p.1) = tempUnitIds ∧
    findVM getConversionData ViewMode.Temperature = none ∧
    explicitParentsCheck (loadData locId "US") = true ∧
    explicitParentsCheck (loadData locId "KR") = true := by
  have h1 := allChecks_us
  have h2 := allChecks_kr
  simp only [allChecks, Bool.and_eq_true] at h1 h2
  obtain ⟨-, -, -, -, hep1, -⟩ := h1
  obtain ⟨-, -, -, -, hep2, -⟩ := h2
  exact ⟨by decide, by decide, hep1, hep2⟩

/-- C10: for every region code and any string provider, the TeaspoonUK unit of the
Volume category is constructed with default-"to" = false: the flag is
`useUSCustomary && region == "GB"`, and `useUSCustomary` is false at "GB". -/
theorem c10_teaspoonUK_never_default_to (loc : String → String) (r : String) :
    unitTargetIn (getUnits loc r) ViewMode.Volume Volume_TeaspoonUK = some false := by
  have hb : (useUSCustomary r && (r == "GB")) = false := by
    cases hg : r == "GB"
    · exact Bool.and_false _
    · have hr : r = "GB" := eq_of_beq hg
      subst hr
      decide
  unfold getUnits
  exact teaspoonFlagsFalse loc _ _ _ _ _ _ hb

end UnitConv
